import Mathlib

/-!
Verification of the Mezopotamya.Travel backend (`mezopotamya-backend/main.py`).

The Python source is shallowly embedded: module-level service handles
(`rag_service`, `vector_store`, `document_processor`) become explicit
availability parameters, SQLite tables become lists of row structures carried
in a `DBState`, HTTP error responses become an `HTTPError` value in an
`Except`, and outcomes of external calls (the Ollama HTTP request, the RAG
service, the Qdrant client) become explicit outcome parameters that the
embedded endpoint bodies branch on exactly as the Python `try`/`except`
blocks do.
-/

deriving instance DecidableEq for Except

namespace Mezopotamya

/-! ## String utilities

Python `needle in haystack` is substring containment; `str.lower` is Unicode
lowercasing.  `pyLower` models `str.lower` on the alphabet occurring in this
program's string literals (ASCII plus the Turkish capitals Ö Ü Ş Ç Ğ İ, where
İ lowers to the two-character sequence i + U+0307 exactly as in CPython);
characters outside that alphabet are left unchanged. -/

def isSubstringOf (needle : List Char) : List Char → Bool
  | [] => needle.isEmpty
  | c :: rest => needle.isPrefixOf (c :: rest) || isSubstringOf needle rest

/-- Model of Python `needle in hay` on strings. -/
def strContains (hay needle : String) : Bool :=
  isSubstringOf needle.data hay.data

def pyLowerChar (c : Char) : Char :=
  if 'A' ≤ c ∧ c ≤ 'Z' then Char.ofNat (c.toNat + 32)
  else if c = 'Ö' then 'ö'
  else if c = 'Ü' then 'ü'
  else if c = 'Ş' then 'ş'
  else if c = 'Ç' then 'ç'
  else if c = 'Ğ' then 'ğ'
  else c

def pyLowerCharFull (c : Char) : List Char :=
  if c = 'İ' then ['i', '̇'] else [pyLowerChar c]

/-- Model of Python `str.lower` (see module comment on the covered alphabet). -/
def pyLower (s : String) : String :=
  ⟨s.data.flatMap pyLowerCharFull⟩

/-! ## Generator fallback chain (`query_llm`, `generate_simple_response`) -/

/-- `generate_simple_response(prompt)` from `main.py`: the rule-based fallback.
Lowercases its argument and dispatches on keyword triggers, returning a canned
Turkish response; the final branch is a generic default. -/
def generate_simple_response (prompt : String) : String :=
  let prompt_lower := pyLower prompt
  if strContains prompt_lower "göbeklitepe" then
    "Göbeklitepe, dünyanın en eski tapınak kompleksidir. M.Ö. 10.000 yıllarına dayanan bu yapı, Şanlıurfa\x27da bulunur. UNESCO Dünya Mirası listesindedir."
  else if strContains prompt_lower "otel" || strContains prompt_lower "konaklama" then
    "Bölgede birçok otel seçeneği bulunmaktadır. Şanlıurfa\x27da Hilton, Dedeman gibi büyük oteller var. Mardin\x27de butik taş evler popülerdir."
  else if strContains prompt_lower "yemek" || strContains prompt_lower "ne yenir" then
    "GAP bölgesi zengin mutfağıyla ünlüdür. Urfa kebabı, çiğ köfte, Mardin\x27in kibe\x27si, Gaziantep baklavası mutlaka denenmeli lezzetlerdir."
  else if strContains prompt_lower "ulaşım" then
    "Bölgeye havayolu ile Şanlıurfa, Gaziantep veya Diyarbakır havalimanlarından ulaşabilirsiniz. Şehirler arası otobüs seferleri de mevcuttur."
  else
    "GAP bölgesi, tarihi ve kültürel zenginlikleriyle sizi bekliyor. Size nasıl yardımcı olabilirim?"

/-- How the primary generation call (`requests.post` to Ollama) can end, seen
from `query_llm`: a raised connection error, or an HTTP response with a status
code and, when the body parses as JSON carrying a `response` field, that
field's text (`none` models a body on which `response.json()[...]` raises). -/
inductive PrimaryOutcome where
  | connError
  | httpResponse (statusCode : Nat) (body : Option String)
  deriving DecidableEq

/-- `query_llm(prompt)` from `main.py`, with the outcome of the Ollama HTTP
call made explicit.  On a 200 response it returns the JSON `response` field
verbatim; on a non-200 status it calls the rule-based fallback; the bare
`except` catches every raised error (connection failure, JSON/key errors) and
also calls the fallback, so the function is total. -/
def query_llm (outcome : PrimaryOutcome) (prompt : String) : String :=
  match outcome with
  | .connError => generate_simple_response prompt
  | .httpResponse statusCode body =>
    if statusCode = 200 then
      match body with
      | some text => text
      | none => generate_simple_response prompt
    else
      generate_simple_response prompt

/-- The primary generation call failed with a connection error or a non-200
status (the failure modes named by the spec). -/
def primaryFails : PrimaryOutcome → Prop
  | .connError => True
  | .httpResponse statusCode _ => statusCode ≠ 200

/-! ## Relational data model (the SQLite tables of `init_db`)

Each table becomes a list of row structures; `AUTOINCREMENT` primary keys
become explicit `next…Id` counters.  Only columns the embedded endpoints read
or write are carried. -/

structure DestinationRow where
  id : Nat
  name : String
  description : String
  category : String
  location : String
  rating : ℚ
  image_url : String
  tags : String
  deriving DecidableEq

structure ConversationRow where
  user_id : String
  message : String
  response : String
  deriving DecidableEq

structure DocumentRow where
  id : Nat
  title : String
  content : String
  doc_type : String
  source : Option String
  deriving DecidableEq

structure ChunkRow where
  document_id : Nat
  chunk_text : String
  chunk_index : Nat
  vector_id : String
  deriving DecidableEq

/-- The preference dict built by `generate_itinerary`
(`{'interests': …, 'duration': …, 'locations': … or []}`); its
`json.dumps` serialization into `route_data` is modelled structurally. -/
structure Preferences where
  interests : List String
  duration : String
  locations : List String
  deriving DecidableEq

structure ItineraryRow where
  name : String
  description : String
  route_data : Preferences
  deriving DecidableEq

structure RouteRow where
  name : String
  waypoints : List String
  distance : ℚ
  duration : String
  deriving DecidableEq

structure DBState where
  destinations : List DestinationRow
  conversations : List ConversationRow
  documents : List DocumentRow
  document_chunks : List ChunkRow
  itineraries : List ItineraryRow
  routes : List RouteRow
  nextDocumentId : Nat
  nextItineraryId : Nat
  nextRouteId : Nat
  deriving DecidableEq

/-- A database with empty tables, as created by `init_db` before any request
(sample destinations omitted; SQLite rowids start at 1). -/
def emptyDB : DBState :=
  ⟨[], [], [], [], [], [], 1, 1, 1⟩

/-- An HTTP error response (`HTTPException(status_code=…, detail=…)`). -/
structure HTTPError where
  statusCode : Nat
  detail : String
  deriving DecidableEq

/-! ## Chat endpoint (`/chat`) -/

structure ChatMessage where
  user_id : String
  message : String
  language : String
  deriving DecidableEq

structure ChatResponse where
  response : String
  user_id : String
  deriving DecidableEq

/-- How `rag_service.query(...)` can end: raised, or returned a dict whose
`response` field is the given text. -/
inductive RagQueryOutcome where
  | raised
  | returned (response : String)
  deriving DecidableEq

/-- The f-string prompt that `chat_endpoint` assembles for the basic-LLM
fallback path, byte for byte (both occurrences in the source are identical). -/
def chat_prompt (message language : String) : String :=
  "Sen Mezopotamya bölgesi turizm asistanısın. Kullanıcı sorusu: " ++ message ++
    "\n    \n    Bölgedeki önemli yerler: Göbeklitepe, Balıklıgöl, Nemrut Dağı, Harran, Mardin, Hasankeyf.\n    \n    Kullanıcıya yardımcı ol, kısa ve öz cevap ver. Dil: " ++
    language

/-- The response text computed by `chat_endpoint`: the RAG answer when
`rag_service` is available and its `query` returns; otherwise (service absent,
or `query` raised) the assembled prompt is sent through `query_llm`.
`ragService = none` models `rag_service is None`. -/
def chat_response (ragService : Option RagQueryOutcome) (primary : PrimaryOutcome)
    (chat : ChatMessage) : String :=
  match ragService with
  | some (.returned r) => r
  | some .raised => query_llm primary (chat_prompt chat.message chat.language)
  | none => query_llm primary (chat_prompt chat.message chat.language)

/-- `chat_endpoint(chat)` from `main.py`: computes the response, inserts one
row into `conversations`, and returns `{response, user_id}`. -/
def chat_endpoint (ragService : Option RagQueryOutcome) (primary : PrimaryOutcome)
    (chat : ChatMessage) (db : DBState) : DBState × ChatResponse :=
  let response := chat_response ragService primary chat
  ({ db with conversations :=
      db.conversations ++ [⟨chat.user_id, chat.message, response⟩] },
   ⟨response, chat.user_id⟩)

/-! ## Decimal rendering of integers

Python renders the nonnegative integers `document_id` and `chunk_index` in
decimal inside the f-string `f"{document_id}_{chunk_index}"`.  `natStr` is
that rendering, built from the digit list least-significant first. -/

def toDigitsRevFuel : Nat → Nat → List Nat
  | 0, n => [n % 10]
  | fuel + 1, n => if n < 10 then [n] else n % 10 :: toDigitsRevFuel fuel (n / 10)

/-- The decimal digits of `n`, least significant first (the fuel argument
makes the recursion structural; `n` steps always suffice). -/
def toDigitsRev (n : Nat) : List Nat :=
  toDigitsRevFuel n n

def digitChar : Nat → Char
  | 0 => '0'
  | 1 => '1'
  | 2 => '2'
  | 3 => '3'
  | 4 => '4'
  | 5 => '5'
  | 6 => '6'
  | 7 => '7'
  | 8 => '8'
  | 9 => '9'
  | _ => '*'

/-- Decimal rendering of a natural number, as Python `str(n)`. -/
def natStr (n : Nat) : String :=
  ⟨((toDigitsRev n).reverse).map digitChar⟩

/-- Value of a least-significant-first digit list (left inverse of
`toDigitsRev`). -/
def digitsRevVal : List Nat → Nat
  | [] => 0
  | d :: ds => d + 10 * digitsRevVal ds

/-- The f-string `f"{document_id}_{chunk_index}"` from `ingest_document`. -/
def vector_id_of (document_id chunk_index : Nat) : String :=
  natStr document_id ++ "_" ++ natStr chunk_index

/-! ## Descending sort by a rational key

Used to model result ordering: SQLite `ORDER BY rating DESC` in
`get_recommendations` and the score ordering of the vector search. -/

def insertDesc (key : α → ℚ) (x : α) : List α → List α
  | [] => [x]
  | y :: ys => if key x ≤ key y then y :: insertDesc key x ys else x :: y :: ys

def sortDesc (key : α → ℚ) : List α → List α
  | [] => []
  | x :: xs => insertDesc key x (sortDesc key xs)

/-! ## Document ingestion (`/documents/ingest`) -/

structure DocumentIngestRequest where
  title : String
  content : String
  doc_type : String
  source : Option String
  deriving DecidableEq

structure DocumentIngestResponse where
  document_id : Nat
  title : String
  chunks_created : Nat
  status : String
  deriving DecidableEq

/-- A chunk as produced by the document processor and fed to the DB/Qdrant
writes: its text and its `chunk_index` (embeddings carried alongside in the
Python dict play no role in the claims). -/
structure Chunk where
  text : String
  chunk_index : Nat
  deriving DecidableEq

/-- `ingest_document(doc)` from `main.py`.  External effects are explicit:
`dpAvailable`/`vsAvailable` are the truthiness of `document_processor` and
`vector_store`; `processOutcome` is what `document_processor.process_document`
returns (its `chunks`) or raises; `embedOutcome` likewise for
`document_processor.embed_chunks`; `addOutcome` for
`vector_store.add_documents`.  The SQLite writes are committed (and the
connection closed) before `add_documents` is called, exactly as in the source;
an error raised before the commit leaves the database unchanged (the
uncommitted connection rolls back). -/
def ingest_document (dpAvailable vsAvailable : Bool)
    (processOutcome : Except String (List Chunk))
    (embedOutcome : List Chunk → Except String (List Chunk))
    (addOutcome : Except String Unit)
    (doc : DocumentIngestRequest) (db : DBState) :
    DBState × Except HTTPError DocumentIngestResponse :=
  if !dpAvailable || !vsAvailable then
    (db, .error ⟨503, "Document processing service unavailable"⟩)
  else
    match processOutcome with
    | .error e => (db, .error ⟨500, "Error ingesting document: " ++ e⟩)
    | .ok chunks =>
      match embedOutcome chunks with
      | .error e => (db, .error ⟨500, "Error ingesting document: " ++ e⟩)
      | .ok chunks_with_embeddings =>
        let document_id := db.nextDocumentId
        let committed : DBState :=
          { db with
            documents := db.documents ++
              [⟨document_id, doc.title, doc.content, doc.doc_type, doc.source⟩],
            document_chunks := db.document_chunks ++
              chunks_with_embeddings.map (fun ch =>
                ⟨document_id, ch.text, ch.chunk_index,
                  vector_id_of document_id ch.chunk_index⟩),
            nextDocumentId := document_id + 1 }
        match addOutcome with
        | .error e =>
          (committed, .error ⟨500, "Error ingesting document: " ++ e⟩)
        | .ok _ =>
          (committed,
           .ok ⟨document_id, doc.title, chunks_with_embeddings.length, "success"⟩)

/-! ## Document search (`/documents/search`) -/

structure DocumentSearchRequest where
  query : String
  top_k : Nat
  filter_type : Option String
  deriving DecidableEq

/-- The pydantic `Field(ge=1, le=50)` bound on `top_k`; requests outside it
are rejected by validation before the handler runs. -/
def DocumentSearchRequest.valid (r : DocumentSearchRequest) : Prop :=
  1 ≤ r.top_k ∧ r.top_k ≤ 50

/-- The pydantic default for `top_k`. -/
def DocumentSearchRequest.default_top_k : Nat := 5

/-- One entry of the search response's `results` list
(`{document_id, chunk_text, score}`, with the payload `type` kept for
filtering). -/
structure SearchHit where
  document_id : Nat
  chunk_text : String
  score : ℚ
  doc_type : String
  deriving DecidableEq

structure DocumentSearchResponse where
  query : String
  results : List SearchHit
  count : Nat
  deriving DecidableEq

/-- Modelled from the spec: `VectorStore.search` lives in `vector_store.py`,
which is not under `src/`.  Per the spec it "returns up to `limit`
SearchResults ordered by descending similarity score; `filter` optionally
restricts by payload field (e.g., `type`)".  `candidates` stands for the
index's records already scored against the query vector. -/
def vectorStoreSearch (candidates : List SearchHit) (limit : Nat)
    (filterType : Option String) : List SearchHit :=
  let filtered :=
    match filterType with
    | none => candidates
    | some t => candidates.filter (fun h => h.doc_type = t)
  (sortDesc (fun h => h.score) filtered).take limit

/-- `search_documents(search)` from `main.py`: 503 when either service handle
is falsy; otherwise embeds the query (`embedOutcome` is what
`document_processor.embed_text` does — a raise is caught and becomes a 500),
searches, and returns the results with `count = len(results)`. -/
def search_documents (dpAvailable vsAvailable : Bool)
    (embedOutcome : Except String Unit) (candidates : List SearchHit)
    (search : DocumentSearchRequest) : Except HTTPError DocumentSearchResponse :=
  if !dpAvailable || !vsAvailable then
    .error ⟨503, "Search service unavailable"⟩
  else
    match embedOutcome with
    | .error e => .error ⟨500, "Error searching documents: " ++ e⟩
    | .ok _ =>
      let results := vectorStoreSearch candidates search.top_k search.filter_type
      .ok ⟨search.query, results, results.length⟩

/-! ## Recommendations (`/recommendations`) -/

structure RecommendationRequest where
  user_id : String
  interests : List String
  max_results : Nat
  deriving DecidableEq

/-- One recommendation dict as built in `get_recommendations`: the
destination's columns, its comma-split tags, and the hard-coded
`match_score: 0.85`. -/
structure Recommendation where
  id : Nat
  name : String
  description : String
  category : String
  location : String
  rating : ℚ
  image_url : String
  tags : List String
  match_score : ℚ
  deriving DecidableEq

structure RecommendationResponse where
  recommendations : List Recommendation
  user_id : String
  deriving DecidableEq

def asciiLowerChar (c : Char) : Char :=
  if 'A' ≤ c ∧ c ≤ 'Z' then Char.ofNat (c.toNat + 32) else c

/-- SQLite `tags LIKE '%pat%'`: ASCII-case-insensitive substring containment
(further SQL wildcard characters inside `pat` are not modelled; none occur in
tag words). -/
def sqlLikeContains (tags pat : String) : Bool :=
  isSubstringOf (pat.data.map asciiLowerChar) (tags.data.map asciiLowerChar)

/-- Python `str.split(',')`: cut at every comma, keeping empty pieces. -/
def splitCommaAux : List Char → List Char → List String
  | [], acc => [⟨acc.reverse⟩]
  | c :: rest, acc =>
    if c = ',' then ⟨acc.reverse⟩ :: splitCommaAux rest []
    else splitCommaAux rest (c :: acc)

/-- Python `row[7].split(',') if row[7] else []`. -/
def splitTags (tags : String) : List String :=
  if tags = "" then [] else splitCommaAux tags.data []

/-- `get_recommendations(request)` from `main.py`: joins the interests with
commas, selects the destinations whose `tags` column matches
`LIKE '%interests_str%'`, orders by rating descending, truncates at
`max_results`, and attaches the constant `match_score` 0.85 to every row. -/
def get_recommendations (request : RecommendationRequest) (db : DBState) :
    RecommendationResponse :=
  let interests_str := String.intercalate "," request.interests
  let matched := db.destinations.filter (fun row => sqlLikeContains row.tags interests_str)
  let limited := (sortDesc (fun row => row.rating) matched).take request.max_results
  ⟨limited.map (fun row =>
      ⟨row.id, row.name, row.description, row.category, row.location,
       row.rating, row.image_url, splitTags row.tags, (0.85 : ℚ)⟩),
   request.user_id⟩

/-! ## Document deletion (`/documents/{doc_id}`) -/

structure DeleteResponse where
  document_id : Nat
  status : String
  deriving DecidableEq

/-- `delete_document(doc_id)` from `main.py`: 503 when `vector_store` is
falsy; otherwise `vector_store.delete_document` runs first (`vsDeleteOutcome`;
a raise is caught and becomes a 500 with the SQLite rows untouched), and only
then are the `document_chunks` and `documents` rows deleted and committed. -/
def delete_document (vsAvailable : Bool) (vsDeleteOutcome : Except String Unit)
    (doc_id : Nat) (db : DBState) : DBState × Except HTTPError DeleteResponse :=
  if !vsAvailable then
    (db, .error ⟨503, "Vector store unavailable"⟩)
  else
    match vsDeleteOutcome with
    | .error e => (db, .error ⟨500, "Error deleting document: " ++ e⟩)
    | .ok _ =>
      ({ db with
          document_chunks := db.document_chunks.filter (fun r => r.document_id ≠ doc_id),
          documents := db.documents.filter (fun r => r.id ≠ doc_id) },
       .ok ⟨doc_id, "deleted"⟩)

/-! ## Itinerary and route generation (`/itineraries/generate`,
`/routes/generate`) -/

structure ItineraryRequest where
  interests : List String
  duration : String
  locations : Option (List String)
  language : String
  deriving DecidableEq

structure ItineraryResponse where
  itinerary_id : Nat
  itinerary : String
  preferences : Preferences
  sources : List String
  deriving DecidableEq

/-- How `rag_service.generate_itinerary(...)` can end. -/
inductive RagItineraryOutcome where
  | raised (msg : String)
  | returned (itinerary : String) (context_sources : List String)
  deriving DecidableEq

/-- `generate_itinerary(request)` from `main.py`.  `ragService = none` models
`rag_service is None` and yields the 503 before anything else runs; when the
service is present, its outcome is `some …`: a raise becomes a 500, a result
is saved to `itineraries` and returned. -/
def generate_itinerary (ragService : Option RagItineraryOutcome)
    (request : ItineraryRequest) (db : DBState) :
    DBState × Except HTTPError ItineraryResponse :=
  match ragService with
  | none => (db, .error ⟨503, "RAG service unavailable"⟩)
  | some (.raised msg) =>
    (db, .error ⟨500, "Error generating itinerary: " ++ msg⟩)
  | some (.returned itinerary context_sources) =>
    let preferences : Preferences :=
      ⟨request.interests, request.duration, request.locations.getD []⟩
    let itinerary_id := db.nextItineraryId
    ({ db with
        itineraries := db.itineraries ++
          [⟨"Plan - " ++ request.duration, itinerary, preferences⟩],
        nextItineraryId := itinerary_id + 1 },
     .ok ⟨itinerary_id, itinerary, preferences, context_sources⟩)

structure RouteRequest where
  start_location : String
  end_location : String
  waypoints : Option (List String)
  language : String
  deriving DecidableEq

structure RouteResponse where
  route_id : Nat
  route : String
  start_location : String
  end_location : String
  waypoints : List String
  sources : List String
  deriving DecidableEq

/-- How `rag_service.generate_route(...)` can end; on success the handler
reads `route`, `start_location`, `end_location`, `waypoints` and
`context_sources` back out of the result dict. -/
inductive RagRouteOutcome where
  | raised (msg : String)
  | returned (route : String) (start_location end_location : String)
      (waypoints : List String) (context_sources : List String)
  deriving DecidableEq

/-- `generate_route(request)` from `main.py`: 503 when `rag_service` is falsy;
a raise anywhere in the body becomes a 500; on success a `routes` row is
saved (distance 0.0, duration "N/A") and the service's result returned. -/
def generate_route (ragService : Option RagRouteOutcome)
    (request : RouteRequest) (db : DBState) :
    DBState × Except HTTPError RouteResponse :=
  match ragService with
  | none => (db, .error ⟨503, "RAG service unavailable"⟩)
  | some (.raised msg) =>
    (db, .error ⟨500, "Error generating route: " ++ msg⟩)
  | some (.returned route s e ws context_sources) =>
    let route_id := db.nextRouteId
    ({ db with
        routes := db.routes ++
          [⟨request.start_location ++ " - " ++ request.end_location,
            request.waypoints.getD [], 0, "N/A"⟩],
        nextRouteId := route_id + 1 },
     .ok ⟨route_id, route, s, e, ws, context_sources⟩)

/-! ## Helper lemmas: decimal rendering is injective and underscore-free -/

theorem digitsRevVal_toDigitsRevFuel :
    ∀ fuel n, n ≤ fuel → digitsRevVal (toDigitsRevFuel fuel n) = n := by
  intro fuel
  induction fuel with
  | zero =>
    intro n hn
    have hz : n = 0 := by omega
    subst hz
    rfl
  | succ fuel ih =>
    intro n hn
    rw [toDigitsRevFuel]
    split
    · simp [digitsRevVal]
    · rename_i h
      rw [digitsRevVal, ih (n / 10) (by omega)]
      omega

theorem digitsRevVal_toDigitsRev (n : Nat) : digitsRevVal (toDigitsRev n) = n :=
  digitsRevVal_toDigitsRevFuel n n le_rfl

theorem toDigitsRev_inj {m n : Nat} (h : toDigitsRev m = toDigitsRev n) : m = n := by
  have hm := digitsRevVal_toDigitsRev m
  rw [h, digitsRevVal_toDigitsRev] at hm
  omega

theorem toDigitsRevFuel_lt :
    ∀ fuel n, ∀ d ∈ toDigitsRevFuel fuel n, d < 10 := by
  intro fuel
  induction fuel with
  | zero =>
    intro n d hd
    simp [toDigitsRevFuel] at hd
    omega
  | succ fuel ih =>
    intro n d hd
    rw [toDigitsRevFuel] at hd
    split at hd
    · rename_i h
      simp at hd
      omega
    · rename_i h
      simp at hd
      rcases hd with hd | hd
      · omega
      · exact ih (n / 10) d hd

theorem toDigitsRev_lt (n : Nat) : ∀ d ∈ toDigitsRev n, d < 10 :=
  toDigitsRevFuel_lt n n

theorem digitChar_inj : ∀ d₁ < 10, ∀ d₂ < 10, digitChar d₁ = digitChar d₂ → d₁ = d₂ := by
  decide

theorem digitChar_ne_underscore : ∀ d < 10, digitChar d ≠ '_' := by
  decide

theorem map_digitChar_inj : ∀ {l₁ l₂ : List Nat}, (∀ d ∈ l₁, d < 10) →
    (∀ d ∈ l₂, d < 10) → l₁.map digitChar = l₂.map digitChar → l₁ = l₂ := by
  intro l₁
  induction l₁ with
  | nil =>
    intro l₂ _ _ h
    cases l₂ with
    | nil => rfl
    | cons c t => simp at h
  | cons c t ih =>
    intro l₂ h₁ h₂ h
    cases l₂ with
    | nil => simp at h
    | cons c₂ t₂ =>
      simp only [List.map_cons, List.cons.injEq] at h
      have hc : c = c₂ :=
        digitChar_inj c (h₁ c (by simp)) c₂ (h₂ c₂ (by simp)) h.1
      have ht : t = t₂ :=
        ih (fun d hd => h₁ d (by simp [hd])) (fun d hd => h₂ d (by simp [hd])) h.2
      rw [hc, ht]

theorem natStr_data (n : Nat) : (natStr n).data = ((toDigitsRev n).reverse).map digitChar :=
  rfl

theorem natStr_inj {m n : Nat} (h : natStr m = natStr n) : m = n := by
  have hdata : ((toDigitsRev m).reverse).map digitChar = ((toDigitsRev n).reverse).map digitChar := by
    have := congrArg String.data h
    rwa [natStr_data, natStr_data] at this
  have hrev : (toDigitsRev m).reverse = (toDigitsRev n).reverse :=
    map_digitChar_inj
      (fun d hd => toDigitsRev_lt m d (List.mem_reverse.mp hd))
      (fun d hd => toDigitsRev_lt n d (List.mem_reverse.mp hd))
      hdata
  exact toDigitsRev_inj (List.reverse_inj.mp hrev)

theorem underscore_not_mem_natStr (n : Nat) : '_' ∉ (natStr n).data := by
  rw [natStr_data]
  intro hmem
  simp only [List.mem_map, List.mem_reverse] at hmem
  obtain ⟨d, hd, hchar⟩ := hmem
  exact digitChar_ne_underscore d (toDigitsRev_lt n d hd) hchar

theorem append_underscore_inj : ∀ {a₁ : List Char} {b₁ : List Char} {a₂ b₂ : List Char},
    '_' ∉ a₁ → '_' ∉ a₂ → a₁ ++ '_' :: b₁ = a₂ ++ '_' :: b₂ → a₁ = a₂ ∧ b₁ = b₂ := by
  intro a₁
  induction a₁ with
  | nil =>
    intro b₁ a₂ b₂ _ ha₂ h
    cases a₂ with
    | nil => simpa using h
    | cons c t =>
      simp only [List.nil_append, List.cons_append, List.cons.injEq] at h
      exact absurd (h.1 ▸ List.mem_cons_self c t) (h.1 ▸ ha₂)
  | cons c t ih =>
    intro b₁ a₂ b₂ ha₁ ha₂ h
    cases a₂ with
    | nil =>
      simp only [List.cons_append, List.nil_append, List.cons.injEq] at h
      exact absurd (show ('_' : Char) ∈ c :: t by simp [h.1]) ha₁
    | cons c₂ t₂ =>
      simp only [List.cons_append, List.cons.injEq] at h
      have := ih (fun hm => ha₁ (List.mem_cons_of_mem c hm))
        (fun hm => ha₂ (List.mem_cons_of_mem c₂ hm)) h.2
      exact ⟨by rw [h.1, this.1], this.2⟩

theorem string_data_append (a b : String) : (a ++ b).data = a.data ++ b.data := by
  cases a
  cases b
  rfl

theorem vector_id_of_inj {d₁ c₁ d₂ c₂ : Nat}
    (h : vector_id_of d₁ c₁ = vector_id_of d₂ c₂) : d₁ = d₂ ∧ c₁ = c₂ := by
  have hdata := congrArg String.data h
  rw [vector_id_of, vector_id_of, string_data_append, string_data_append,
    string_data_append, string_data_append] at hdata
  have hdata' : (natStr d₁).data ++ '_' :: (natStr c₁).data
      = (natStr d₂).data ++ '_' :: (natStr c₂).data := by
    simpa using hdata
  have hsplit := append_underscore_inj (underscore_not_mem_natStr d₁)
    (underscore_not_mem_natStr d₂) hdata'
  exact ⟨natStr_inj (String.ext hsplit.1), natStr_inj (String.ext hsplit.2)⟩

/-! ## Helper lemmas: descending insertion sort -/

theorem mem_insertDesc {key : α → ℚ} {x y : α} :
    ∀ {l : List α}, y ∈ insertDesc key x l → y = x ∨ y ∈ l := by
  intro l
  induction l with
  | nil =>
    intro h
    simp [insertDesc] at h
    exact Or.inl h
  | cons z zs ih =>
    intro h
    rw [insertDesc] at h
    split at h
    · rcases List.mem_cons.mp h with h | h
      · exact Or.inr (by simp [h])
      · rcases ih h with h | h
        · exact Or.inl h
        · exact Or.inr (List.mem_cons_of_mem z h)
    · rcases List.mem_cons.mp h with h | h
      · exact Or.inl h
      · exact Or.inr h

theorem pairwise_insertDesc {key : α → ℚ} {x : α} :
    ∀ {l : List α}, List.Pairwise (fun a b => key b ≤ key a) l →
      List.Pairwise (fun a b => key b ≤ key a) (insertDesc key x l) := by
  intro l
  induction l with
  | nil =>
    intro _
    simp [insertDesc]
  | cons z zs ih =>
    intro h
    rw [insertDesc]
    split
    · rename_i hle
      refine List.Pairwise.cons ?_ (ih (List.pairwise_cons.mp h).2)
      intro y hy
      rcases mem_insertDesc hy with rfl | hy
      · exact hle
      · exact (List.pairwise_cons.mp h).1 y hy
    · rename_i hlt
      refine List.Pairwise.cons ?_ h
      intro y hy
      rcases List.mem_cons.mp hy with rfl | hy
      · exact le_of_not_le hlt
      · exact le_trans ((List.pairwise_cons.mp h).1 y hy) (le_of_not_le hlt)

theorem pairwise_sortDesc (key : α → ℚ) :
    ∀ l : List α, List.Pairwise (fun a b => key b ≤ key a) (sortDesc key l) := by
  intro l
  induction l with
  | nil => simp [sortDesc]
  | cons x xs ih => exact pairwise_insertDesc ih

/-! ## Helper lemmas: the rule-based fallback never returns an empty string -/

theorem generate_simple_response_ne_empty (prompt : String) :
    generate_simple_response prompt ≠ "" := by
  rw [generate_simple_response]
  split
  · decide
  · split
    · decide
    · split
      · decide
      · split
        · decide
        · decide

/-! ## Claim theorems -/

/-- Claim C1: the generation fallback chain never raises and, whenever the
primary call fails with a connection error or a non-200 status, the rule-based
fallback is invoked and returns a non-empty canned string.  (`query_llm` is a
total function of the primary outcome, which is the embedded form of "never
raises to its caller".) -/
theorem generation_fallback_nonempty (outcome : PrimaryOutcome) (prompt : String)
    (h : primaryFails outcome) :
    query_llm outcome prompt = generate_simple_response prompt ∧
      query_llm outcome prompt ≠ "" := by
  have hfall : query_llm outcome prompt = generate_simple_response prompt := by
    cases outcome with
    | connError => rfl
    | httpResponse statusCode body =>
      have hne : statusCode ≠ 200 := h
      show (if statusCode = 200 then _ else generate_simple_response prompt)
          = generate_simple_response prompt
      rw [if_neg hne]
  exact ⟨hfall, hfall ▸ generate_simple_response_ne_empty prompt⟩

/-- Witness for C1 at a concrete failing outcome and prompt. -/
theorem generation_fallback_nonempty_witness :
    query_llm PrimaryOutcome.connError "merhaba" = generate_simple_response "merhaba" ∧
      query_llm PrimaryOutcome.connError "merhaba" ≠ "" :=
  generation_fallback_nonempty PrimaryOutcome.connError "merhaba" trivial

/-- Claim C3: with `rag_service` unavailable (`none`), the chat endpoint still
answers through the basic-LLM/fallback path, while the itinerary and route
endpoints return a 503 with the database untouched regardless of any
generation outcome (none exists to consult). -/
theorem rag_unavailable_degradation (primary : PrimaryOutcome) (chat : ChatMessage)
    (db₁ db₂ db₃ : DBState) (itinReq : ItineraryRequest) (routeReq : RouteRequest) :
    (chat_endpoint none primary chat db₁).2.response
        = query_llm primary (chat_prompt chat.message chat.language) ∧
      generate_itinerary none itinReq db₂
        = (db₂, Except.error ⟨503, "RAG service unavailable"⟩) ∧
      generate_route none routeReq db₃
        = (db₃, Except.error ⟨503, "RAG service unavailable"⟩) :=
  ⟨rfl, rfl, rfl⟩

/-- Claim C4 (code bug): on primary failure the fallback inspects the
assembled prompt, not the original user message.  The chat template itself
names Göbeklitepe, so for the user message "otel" the chat fallback returns
the landmark response, while the rule-based fallback applied to the message
alone would return the lodging response. -/
theorem fallback_inspects_prompt_code_bug :
    chat_response none PrimaryOutcome.connError ⟨"user123", "otel", "tr"⟩
        = "Göbeklitepe, dünyanın en eski tapınak kompleksidir. M.Ö. 10.000 yıllarına dayanan bu yapı, Şanlıurfa\x27da bulunur. UNESCO Dünya Mirası listesindedir." ∧
      generate_simple_response "otel"
        = "Bölgede birçok otel seçeneği bulunmaktadır. Şanlıurfa\x27da Hilton, Dedeman gibi büyük oteller var. Mardin\x27de butik taş evler popülerdir." ∧
      chat_response none PrimaryOutcome.connError ⟨"user123", "otel", "tr"⟩
        ≠ generate_simple_response "otel" :=
  ⟨by decide, by decide, by decide⟩

/-- Claim C5: the rule-based fallback is a case-insensitive keyword dispatch
with the priority order landmark, lodging, food, transport, default. -/
theorem simple_response_dispatch (s : String) :
    (strContains (pyLower s) "göbeklitepe" = true →
      generate_simple_response s
        = "Göbeklitepe, dünyanın en eski tapınak kompleksidir. M.Ö. 10.000 yıllarına dayanan bu yapı, Şanlıurfa\x27da bulunur. UNESCO Dünya Mirası listesindedir.") ∧
    (strContains (pyLower s) "göbeklitepe" = false →
      (strContains (pyLower s) "otel" = true ∨ strContains (pyLower s) "konaklama" = true) →
      generate_simple_response s
        = "Bölgede birçok otel seçeneği bulunmaktadır. Şanlıurfa\x27da Hilton, Dedeman gibi büyük oteller var. Mardin\x27de butik taş evler popülerdir.") ∧
    (strContains (pyLower s) "göbeklitepe" = false →
      strContains (pyLower s) "otel" = false →
      strContains (pyLower s) "konaklama" = false →
      (strContains (pyLower s) "yemek" = true ∨ strContains (pyLower s) "ne yenir" = true) →
      generate_simple_response s
        = "GAP bölgesi zengin mutfağıyla ünlüdür. Urfa kebabı, çiğ köfte, Mardin\x27in kibe\x27si, Gaziantep baklavası mutlaka denenmeli lezzetlerdir.") ∧
    (strContains (pyLower s) "göbeklitepe" = false →
      strContains (pyLower s) "otel" = false →
      strContains (pyLower s) "konaklama" = false →
      strContains (pyLower s) "yemek" = false →
      strContains (pyLower s) "ne yenir" = false →
      strContains (pyLower s) "ulaşım" = true →
      generate_simple_response s
        = "Bölgeye havayolu ile Şanlıurfa, Gaziantep veya Diyarbakır havalimanlarından ulaşabilirsiniz. Şehirler arası otobüs seferleri de mevcuttur.") ∧
    (strContains (pyLower s) "göbeklitepe" = false →
      strContains (pyLower s) "otel" = false →
      strContains (pyLower s) "konaklama" = false →
      strContains (pyLower s) "yemek" = false →
      strContains (pyLower s) "ne yenir" = false →
      strContains (pyLower s) "ulaşım" = false →
      generate_simple_response s
        = "GAP bölgesi, tarihi ve kültürel zenginlikleriyle sizi bekliyor. Size nasıl yardımcı olabilirim?") := by
  refine ⟨?_, ?_, ?_, ?_, ?_⟩
  · intro h1
    rw [generate_simple_response]
    simp [h1]
  · intro h1 h2
    rw [generate_simple_response]
    rcases h2 with h2 | h2 <;> simp [h1, h2]
  · intro h1 h2 h3 h4
    rw [generate_simple_response]
    rcases h4 with h4 | h4 <;> simp [h1, h2, h3, h4]
  · intro h1 h2 h3 h4 h5 h6
    rw [generate_simple_response]
    simp [h1, h2, h3, h4, h5, h6]
  · intro h1 h2 h3 h4 h5 h6
    rw [generate_simple_response]
    simp [h1, h2, h3, h4, h5, h6]

/-- Witness for C5: a mixed-case lodging query triggers the lodging branch. -/
theorem simple_response_dispatch_witness :
    generate_simple_response "OTEL var mı"
      = "Bölgede birçok otel seçeneği bulunmaktadır. Şanlıurfa\x27da Hilton, Dedeman gibi büyük oteller var. Mardin\x27de butik taş evler popülerdir." :=
  (simple_response_dispatch "OTEL var mı").2.1 (by decide) (Or.inl (by decide))

/-- Claim C9: every chat request appends exactly one `conversations` row
holding the request's user id, the user's message, and the exact response
text returned to the caller. -/
theorem chat_persists_conversation (ragService : Option RagQueryOutcome)
    (primary : PrimaryOutcome) (chat : ChatMessage) (db : DBState) :
    (chat_endpoint ragService primary chat db).1.conversations
      = db.conversations ++
        [⟨chat.user_id, chat.message, (chat_endpoint ragService primary chat db).2.response⟩] :=
  rfl

/-- Claim C10: when the vector-store delete raises, `delete_document` returns
a 500 and the relational state is returned unchanged — the SQLite rows are
only touched after the vector-store delete succeeds. -/
theorem delete_vector_first_db_unchanged (e : String) (doc_id : Nat) (db : DBState) :
    delete_document true (Except.error e) doc_id db
      = (db, Except.error ⟨500, "Error deleting document: " ++ e⟩) :=
  rfl

/-- Counterexample to claim C2: with both services available and processing
and embedding succeeding, a vector-store error in `add_documents` yields the
500 but the database is NOT unchanged — the document was committed before the
vector-store call. -/
theorem ingest_db_changed_counterexample :
    (ingest_document true true (Except.ok [⟨"GAP bölgesi tarihi", 0⟩])
        (fun cs => Except.ok cs) (Except.error "qdrant down")
        ⟨"Rehber", "GAP bölgesi tarihi", "general", none⟩ emptyDB).2
      = Except.error ⟨500, "Error ingesting document: qdrant down"⟩ ∧
    (ingest_document true true (Except.ok [⟨"GAP bölgesi tarihi", 0⟩])
        (fun cs => Except.ok cs) (Except.error "qdrant down")
        ⟨"Rehber", "GAP bölgesi tarihi", "general", none⟩ emptyDB).1
      ≠ emptyDB :=
  ⟨by decide, by decide⟩

/-- Claim C2 as amended: ingestion errors raised before the SQLite commit
(processing or embedding) produce a 500 with the database unchanged, but a
vector-store error in `add_documents` happens after the commit, so the 500 is
returned while the document row and its chunk rows remain persisted. -/
theorem ingest_error_persistence_amended
    (processOutcome : Except String (List Chunk))
    (embedOutcome : List Chunk → Except String (List Chunk))
    (addOutcome : Except String Unit)
    (doc : DocumentIngestRequest) (db : DBState) :
    (∀ e, processOutcome = Except.error e →
      ingest_document true true processOutcome embedOutcome addOutcome doc db
        = (db, Except.error ⟨500, "Error ingesting document: " ++ e⟩)) ∧
    (∀ cs e, processOutcome = Except.ok cs → embedOutcome cs = Except.error e →
      ingest_document true true processOutcome embedOutcome addOutcome doc db
        = (db, Except.error ⟨500, "Error ingesting document: " ++ e⟩)) ∧
    (∀ cs ce e, processOutcome = Except.ok cs → embedOutcome cs = Except.ok ce →
      addOutcome = Except.error e →
      (ingest_document true true processOutcome embedOutcome addOutcome doc db).2
          = Except.error ⟨500, "Error ingesting document: " ++ e⟩ ∧
      (ingest_document true true processOutcome embedOutcome addOutcome doc db).1.documents
          = db.documents ++
            [⟨db.nextDocumentId, doc.title, doc.content, doc.doc_type, doc.source⟩] ∧
      (ingest_document true true processOutcome embedOutcome addOutcome doc db).1.document_chunks
          = db.document_chunks ++ ce.map (fun ch =>
              ⟨db.nextDocumentId, ch.text, ch.chunk_index,
                vector_id_of db.nextDocumentId ch.chunk_index⟩)) := by
  refine ⟨?_, ?_, ?_⟩
  · intro e he
    subst he
    rfl
  · intro cs e hp he
    subst hp
    rw [ingest_document.eq_def]
    simp [he]
  · intro cs ce e hp he ha
    subst hp
    subst ha
    rw [ingest_document.eq_def]
    simp [he]

/-- Witness for the amended C2 at a concrete vector-store failure. -/
theorem ingest_error_persistence_amended_witness :
    (ingest_document true true (Except.ok [⟨"metin", 0⟩]) (fun cs => Except.ok cs)
        (Except.error "down") ⟨"Rehber", "metin", "general", none⟩ emptyDB).2
      = Except.error ⟨500, "Error ingesting document: down"⟩ ∧
    (ingest_document true true (Except.ok [⟨"metin", 0⟩]) (fun cs => Except.ok cs)
        (Except.error "down") ⟨"Rehber", "metin", "general", none⟩ emptyDB).1.documents
      = [⟨1, "Rehber", "metin", "general", none⟩] ∧
    (ingest_document true true (Except.ok [⟨"metin", 0⟩]) (fun cs => Except.ok cs)
        (Except.error "down") ⟨"Rehber", "metin", "general", none⟩ emptyDB).1.document_chunks
      = [⟨1, "metin", 0, vector_id_of 1 0⟩] :=
  (ingest_error_persistence_amended (Except.ok [⟨"metin", 0⟩]) (fun cs => Except.ok cs)
      (Except.error "down") ⟨"Rehber", "metin", "general", none⟩ emptyDB).2.2
    [⟨"metin", 0⟩] [⟨"metin", 0⟩] "down" rfl rfl rfl

/-- Claim C6: each ingested chunk row's `vector_id` is the string
`"{document_id}_{chunk_index}"`, and distinct `(document_id, chunk_index)`
pairs always yield distinct vector ids. -/
theorem vector_id_derivation_injective :
    (∀ d₁ c₁ d₂ c₂ : Nat,
      vector_id_of d₁ c₁ = vector_id_of d₂ c₂ → d₁ = d₂ ∧ c₁ = c₂) ∧
    (∀ (dp vs : Bool) (po : Except String (List Chunk))
        (eo : List Chunk → Except String (List Chunk)) (ao : Except String Unit)
        (doc : DocumentIngestRequest) (db : DBState),
      (∀ row ∈ db.document_chunks,
        row.vector_id = vector_id_of row.document_id row.chunk_index) →
      ∀ row ∈ (ingest_document dp vs po eo ao doc db).1.document_chunks,
        row.vector_id = vector_id_of row.document_id row.chunk_index) := by
  constructor
  · exact fun _ _ _ _ h => vector_id_of_inj h
  · intro dp vs po eo ao doc db hinv row hrow
    by_cases hbool : (!dp || !vs) = true
    · rw [ingest_document.eq_def, if_pos hbool] at hrow
      exact hinv row hrow
    · rw [ingest_document.eq_def, if_neg hbool] at hrow
      cases po with
      | error e => exact hinv row hrow
      | ok chunks =>
        dsimp only at hrow
        cases heo : eo chunks with
        | error e =>
          rw [heo] at hrow
          exact hinv row hrow
        | ok ce =>
          rw [heo] at hrow
          have hrow' : row ∈ db.document_chunks ++ ce.map (fun ch =>
              (⟨db.nextDocumentId, ch.text, ch.chunk_index,
                vector_id_of db.nextDocumentId ch.chunk_index⟩ : ChunkRow)) := by
            cases ao with
            | error e => exact hrow
            | ok u => exact hrow
          rcases List.mem_append.mp hrow' with hmem | hmem
          · exact hinv row hmem
          · obtain ⟨ch, _, rfl⟩ := List.mem_map.mp hmem
            rfl

/-- Witness for C6: ingesting one chunk into the empty database gives it
vector id "1_0". -/
theorem vector_id_derivation_injective_witness :
    ("1_0" : String) = vector_id_of 1 0 :=
  vector_id_derivation_injective.2 true true (Except.ok [⟨"metin", 0⟩])
    (fun cs => Except.ok cs) (Except.ok ()) ⟨"Rehber", "metin", "general", none⟩
    emptyDB (by simp [emptyDB]) ⟨1, "metin", 0, "1_0"⟩ (by decide)

/-- Claim C7: for a validated search request the handler succeeds, the
response's `count` equals the length of `results`, at most `top_k` results
are returned, and they are ordered by non-increasing score. -/
theorem search_count_limit_sorted (candidates : List SearchHit)
    (req : DocumentSearchRequest) (hvalid : req.valid) :
    ∃ resp, search_documents true true (Except.ok ()) candidates req = Except.ok resp ∧
      resp.count = resp.results.length ∧
      resp.results.length ≤ req.top_k ∧
      List.Pairwise (fun a b => b.score ≤ a.score) resp.results := by
  refine ⟨_, rfl, rfl, ?_, ?_⟩
  · show (vectorStoreSearch candidates req.top_k req.filter_type).length ≤ req.top_k
    simp only [vectorStoreSearch]
    exact List.length_take_le _ _
  · show List.Pairwise _ (vectorStoreSearch candidates req.top_k req.filter_type)
    simp only [vectorStoreSearch]
    exact List.Pairwise.sublist (List.take_sublist _ _) (pairwise_sortDesc _ _)

/-- Witness for C7 on a two-hit corpus with the default `top_k` of 5. -/
theorem search_count_limit_sorted_witness :
    ∃ resp, search_documents true true (Except.ok ())
        [⟨1, "Göbeklitepe, en eski tapınak kompleksi", 9/10, "destination_info"⟩,
         ⟨2, "Konaklama bilgisi", 3/10, "general"⟩]
        ⟨"Göbeklitepe tarihi", 5, none⟩ = Except.ok resp ∧
      resp.count = resp.results.length ∧
      resp.results.length ≤ (5 : Nat) ∧
      List.Pairwise (fun a b => b.score ≤ a.score) resp.results :=
  search_count_limit_sorted
    [⟨1, "Göbeklitepe, en eski tapınak kompleksi", 9/10, "destination_info"⟩,
     ⟨2, "Konaklama bilgisi", 3/10, "general"⟩]
    ⟨"Göbeklitepe tarihi", 5, none⟩ ⟨by decide, by decide⟩

/-- Claim C8: every recommendation returned by `get_recommendations` carries
the constant `match_score` 0.85, independent of interests and tags. -/
theorem recommendation_constant_match_score (request : RecommendationRequest)
    (db : DBState) (rec : Recommendation)
    (h : rec ∈ (get_recommendations request db).recommendations) :
    rec.match_score = (0.85 : ℚ) := by
  simp only [get_recommendations, List.mem_map] at h
  obtain ⟨row, _, rfl⟩ := h
  rfl

/-- Witness for C8: a matching destination row produces a recommendation with
match score 0.85. -/
theorem recommendation_constant_match_score_witness :
    (⟨1, "Göbeklitepe", "Dünyanın en eski tapınak kompleksi", "Tarihi", "Şanlıurfa",
        (4 : ℚ), "gobekli.jpg", ["tarih", "arkeoloji", "unesco"], 0.85⟩
      : Recommendation).match_score = (0.85 : ℚ) :=
  recommendation_constant_match_score ⟨"user123", ["tarih"], 5⟩
    { emptyDB with destinations :=
        [⟨1, "Göbeklitepe", "Dünyanın en eski tapınak kompleksi", "Tarihi",
          "Şanlıurfa", (4 : ℚ), "gobekli.jpg", "tarih,arkeoloji,unesco"⟩] }
    _ (List.mem_singleton.mpr rfl)

end Mezopotamya
